import Mathlib

/-!
Verification of the Milvus collection facade (`pyfiles/milvus_utils.py` with
validators from `validators/milvus_types.py`).

The facade is shallowly embedded: dynamic Python values become the inductive
type `PyVal`; each pydantic validator becomes a boolean predicate; every call
the facade makes to the underlying client library (including purely local
schema-builder calls) is recorded in a trace of `Call` values; the responses
of the underlying client are supplied by a `Remote` environment, so theorems
quantify over every possible behaviour of the remote service. Raised
exceptions become `Except Err` results, with `Err` distinguishing the
type-validation, invariant (ValueError), and remote failure kinds.
-/

set_option autoImplicit false

namespace MilvusFacade

/-- A dynamically typed Python value, as the facade manipulates them.
`obj ty elems` stands for an instance of class `ty` (for example
`Function`, `MilvusClient`, `CollectionSchema`, `IndexParams`,
`SearchResult`, `HybridHits`, `Hit`) that iterates over `elems`.
Float literals are represented by their decimal value as a rational. -/
inductive PyVal where
  | none
  | bool (b : Bool)
  | int (n : Int)
  | float (q : Rat)
  | str (s : String)
  | list (xs : List PyVal)
  | dict (kvs : List (String × PyVal))
  | obj (ty : String) (elems : List PyVal)

/-- `isinstance(v, str)`. -/
def PyVal.isStr : PyVal → Bool
  | .str _ => true
  | _ => false

/-- `isinstance(v, dict)`. -/
def PyVal.isDict : PyVal → Bool
  | .dict _ => true
  | _ => false

/-- `isinstance(v, list)`. -/
def PyVal.isList : PyVal → Bool
  | .list _ => true
  | _ => false

/-- `isinstance(v, int)` as the combined pydantic validation applies it:
the `int` annotation admits exactly `int` values (pydantic rejects `bool`
for an `int` field before the `isinstance` validator runs). -/
def PyVal.isInt : PyVal → Bool
  | .int _ => true
  | _ => false

/-- `isinstance(v, C)` for a library class `C` named by its type tag. -/
def PyVal.isInst (ty : String) : PyVal → Bool
  | .obj t _ => t == ty
  | _ => false

/-- The value is a list and every item satisfies `p`
(the `isinstance(v, list)` check followed by `all(p(item) for item in v)`). -/
def PyVal.isListOf (p : PyVal → Bool) : PyVal → Bool
  | .list xs => xs.all p
  | _ => false

/-- Iteration over a value the validators have established to be a list
(`for params in field_params_list` and similar). -/
def PyVal.items : PyVal → List PyVal
  | .list xs => xs
  | _ => []

/-- Python membership `x in xs` as the lifecycle guards use it: both the
name and (after `ListCollectionsResults` validation) every element of the
collections list are strings, so only string comparisons are reachable. -/
def pyIn (x : PyVal) (xs : PyVal) : Bool :=
  match x, xs with
  | .str s, .list ys => ys.any fun y =>
      match y with
      | .str t => s == t
      | _ => false
  | _, _ => false

/-- The list is a `list` that contains at least one non-string item
(`None` included). -/
def hasNonStrItem : PyVal → Bool
  | .list xs => xs.any fun x => !(x.isStr)
  | _ => false

/-! ## Validators (`validators/milvus_types.py`)

Each pydantic model validates its fields with `isinstance` checks and
raises `TypeError` on failure; the boolean predicates below hold exactly
when validation passes. -/

/-- `InitClientParams`: `uri` must be a string. -/
def InitClientParams.valid (uri : PyVal) : Bool :=
  uri.isStr

/-- `InitClientResults`: the client handle must be a `MilvusClient`. -/
def InitClientResults.valid (results : PyVal) : Bool :=
  results.isInst "MilvusClient"

/-- `CreateFieldParams`: a `CollectionSchema` and a `dict` of field params. -/
def CreateFieldParams.valid (collection_schema params : PyVal) : Bool :=
  collection_schema.isInst "CollectionSchema" && params.isDict

/-- `CreateIndexParams`: an `IndexParams` and a `dict` of index params. -/
def CreateIndexParams.valid (index_params params : PyVal) : Bool :=
  index_params.isInst "IndexParams" && params.isDict

/-- `ListCollectionsResults`: a list whose items are all strings. -/
def ListCollectionsResults.valid (results : PyVal) : Bool :=
  results.isListOf PyVal.isStr

/-- `CreateCollectionParams`: string name, list of `dict` field params,
list of `Function` objects, list of `dict` index params. -/
def CreateCollectionParams.valid
    (name field_params_list func_list index_params_list : PyVal) : Bool :=
  name.isStr
    && field_params_list.isListOf PyVal.isDict
    && func_list.isListOf (PyVal.isInst "Function")
    && index_params_list.isListOf PyVal.isDict

/-- `DropCollectionParams`: string name. -/
def DropCollectionParams.valid (name : PyVal) : Bool :=
  name.isStr

/-- `InsertParams`: string name and a list of `dict` records. -/
def InsertParams.valid (name data : PyVal) : Bool :=
  name.isStr && data.isListOf PyVal.isDict

/-- `InsertResults`: the insert acknowledgment must be a `dict`. -/
def InsertResults.valid (results : PyVal) : Bool :=
  results.isDict

/-- `DeleteParams`: string name and a list of string ids. -/
def DeleteParams.valid (name ids : PyVal) : Bool :=
  name.isStr && ids.isListOf PyVal.isStr

/-- `FullTextSearchParams`: string name, list of string queries, int limit. -/
def FullTextSearchParams.valid (name query_list limit : PyVal) : Bool :=
  name.isStr && query_list.isListOf PyVal.isStr && limit.isInt

/-- `FullTextSearchResults`: a `SearchResult` whose items are `HybridHits`,
each of whose items is a `Hit`. -/
def FullTextSearchResults.valid (results : PyVal) : Bool :=
  match results with
  | .obj ty hits =>
      ty == "SearchResult"
        && hits.all (fun h => h.isInst "HybridHits")
        && hits.all (fun h =>
            match h with
            | .obj _ items => items.all (fun i => i.isInst "Hit")
            | _ => false)
  | _ => false

/-! ## Effects and the remote environment -/

/-- A raised exception, by kind: pydantic/`TypeError` from a validator,
`ValueError` from a post-condition check, or a failure raised by the
underlying client library. -/
inductive Err where
  | typeError (msg : String)
  | valueError (msg : String)
  | remoteError (msg : String)

/-- The raised value, if any, is a type-validation error. -/
def raisesTypeError {α : Type} : Except Err α → Bool
  | .error (.typeError _) => true
  | _ => false

/-- The raised value, if any, is an invariant `ValueError`. -/
def raisesValueError {α : Type} : Except Err α → Bool
  | .error (.valueError _) => true
  | _ => false

/-- A call the facade makes into the underlying client library, with the
arguments it passes. `sleep` records the fixed `time.sleep(0.5)` delay. -/
inductive Call where
  | listCollections
  | connect (uri : PyVal)
  | createSchema
  | addField (params : PyVal)
  | addFunction (func : PyVal)
  | prepareIndexParams
  | addIndex (params : PyVal)
  | createCollection (name : PyVal)
  | dropCollection (name : PyVal)
  | insert (name : PyVal) (data : PyVal)
  | delete (name : PyVal) (ids : PyVal)
  | search (collection_name : PyVal) (data : PyVal) (anns_field : PyVal)
      (output_fields : PyVal) (limit : PyVal) (search_params : PyVal)
  | sleep

/-- The behaviour of the underlying client library: what each call it
receives returns, or which exception it raises. `listResp` is indexed by
call position because one facade operation may list collections twice. -/
structure Remote where
  connectResp : Except Err PyVal
  listResp : Nat → Except Err PyVal
  fieldResp : Nat → Except Err Unit
  funcResp : Nat → Except Err Unit
  indexResp : Nat → Except Err Unit
  createResp : Except Err Unit
  dropResp : Except Err Unit
  insertResp : Except Err PyVal
  deleteResp : Except Err PyVal
  searchResp : Except Err PyVal

/-! ## The facade operations (`pyfiles/milvus_utils.py`)

Each operation returns the value it produces (`PyVal.none` for a Python
`return None` or a fall-through) or the exception it raises, paired with
the trace of client-library calls it made, in order. -/

/-- `MilvusClientInit.list_collections`: call the remote listing, then
validate the result is a list of strings; failures are re-raised. -/
def list_collections (r : Remote) (i : Nat) : Except Err PyVal × List Call :=
  match r.listResp i with
  | .error e => (.error e, [.listCollections])
  | .ok collections =>
      if ListCollectionsResults.valid collections then
        (.ok collections, [.listCollections])
      else
        (.error (.typeError "Each item in the collections list should be a string."),
         [.listCollections])

/-- `MilvusClientInit.__init__`: validate the uri; when a client handle is
supplied, validate it is a `MilvusClient` and store it unchanged, else
construct a fresh handle from the uri (`_init_client`), validating the
result; connection failures are re-raised. -/
def MilvusClientInit.init (r : Remote) (uri : PyVal) (client : Option PyVal) :
    Except Err PyVal × List Call :=
  if InitClientParams.valid uri then
    match client with
    | Option.some c =>
        if InitClientResults.valid c then (.ok c, [])
        else (.error (.typeError "InitClientResults"), [])
    | Option.none =>
        match r.connectResp with
        | .error e => (.error e, [.connect uri])
        | .ok c =>
            if InitClientResults.valid c then (.ok c, [.connect uri])
            else (.error (.typeError "InitClientResults"), [.connect uri])
  else (.error (.typeError "InitClientParams"), [])

/-- `MilvusClientInit._create_field` at loop position `i`: validate the
schema/params pair, then `schema.add_field(**params)`; a failure of the
add-field call is re-raised. -/
def _create_field (r : Remote) (i : Nat) (schema params : PyVal) :
    Except Err Unit × List Call :=
  if CreateFieldParams.valid schema params then
    match r.fieldResp i with
    | .ok _ => (.ok (), [.addField params])
    | .error e => (.error e, [.addField params])
  else (.error (.typeError "CreateFieldParams"), [])

/-- `MilvusClientInit._create_index` at loop position `i`: validate the
index-params/params pair, then `index_params.add_index(**params)`. -/
def _create_index (r : Remote) (i : Nat) (index_params params : PyVal) :
    Except Err Unit × List Call :=
  if CreateIndexParams.valid index_params params then
    match r.indexResp i with
    | .ok _ => (.ok (), [.addIndex params])
    | .error e => (.error e, [.addIndex params])
  else (.error (.typeError "CreateIndexParams"), [])

/-- The `for params in field_params_list: self._create_field(schema, params)`
loop, stopping at the first raised exception. -/
def create_fields_loop (r : Remote) (schema : PyVal) (ps : List PyVal) (i : Nat) :
    Except Err Unit × List Call :=
  match ps with
  | [] => (.ok (), [])
  | p :: rest =>
      match _create_field r i schema p with
      | (.error e, t) => (.error e, t)
      | (.ok _, t) =>
          let (res, t2) := create_fields_loop r schema rest (i + 1)
          (res, t ++ t2)

/-- The `for func in func_list: schema.add_function(func)` loop. -/
def add_functions_loop (r : Remote) (fs : List PyVal) (i : Nat) :
    Except Err Unit × List Call :=
  match fs with
  | [] => (.ok (), [])
  | f :: rest =>
      match r.funcResp i with
      | .error e => (.error e, [.addFunction f])
      | .ok _ =>
          let (res, t2) := add_functions_loop r rest (i + 1)
          (res, .addFunction f :: t2)

/-- The `for params in index_params_list: self._create_index(...)` loop. -/
def create_indexes_loop (r : Remote) (index_params : PyVal) (ps : List PyVal)
    (i : Nat) : Except Err Unit × List Call :=
  match ps with
  | [] => (.ok (), [])
  | p :: rest =>
      match _create_index r i index_params p with
      | (.error e, t) => (.error e, t)
      | (.ok _, t) =>
          let (res, t2) := create_indexes_loop r index_params rest (i + 1)
          (res, t ++ t2)

/-- `MilvusClientInit.create_collection`: validate the arguments; list the
collections and no-op if the name is present; otherwise build the schema
(fields, functions), prepare index params (indexes), invoke the remote
create, then re-list and raise a `ValueError` if the name is still absent. -/
def create_collection (r : Remote)
    (name field_params_list func_list index_params_list : PyVal) :
    Except Err PyVal × List Call :=
  if CreateCollectionParams.valid name field_params_list func_list index_params_list then
    match list_collections r 0 with
    | (.error e, t) => (.error e, t)
    | (.ok collections, t) =>
        if pyIn name collections then (.ok PyVal.none, t)
        else
          let schema : PyVal := .obj "CollectionSchema" []
          let t1 := t ++ [Call.createSchema]
          match create_fields_loop r schema field_params_list.items 0 with
          | (.error e, tf) => (.error e, t1 ++ tf)
          | (.ok _, tf) =>
              match add_functions_loop r func_list.items 0 with
              | (.error e, tg) => (.error e, t1 ++ tf ++ tg)
              | (.ok _, tg) =>
                  let index_params : PyVal := .obj "IndexParams" []
                  let t2 := t1 ++ tf ++ tg ++ [Call.prepareIndexParams]
                  match create_indexes_loop r index_params index_params_list.items 0 with
                  | (.error e, ti) => (.error e, t2 ++ ti)
                  | (.ok _, ti) =>
                      let t3 := t2 ++ ti ++ [Call.createCollection name]
                      match r.createResp with
                      | .error e => (.error e, t3)
                      | .ok _ =>
                          match list_collections r 1 with
                          | (.error e, t4) => (.error e, t3 ++ t4)
                          | (.ok cols2, t4) =>
                              if pyIn name cols2 then (.ok PyVal.none, t3 ++ t4)
                              else
                                (.error (.valueError
                                  "The new collection name is not in the collections list."),
                                 t3 ++ t4)
  else (.error (.typeError "CreateCollectionParams"), [])

/-- `MilvusClientInit.drop_collection`: validate the name; list the
collections and return if the name is absent; otherwise invoke the remote
drop, re-list, and raise a `ValueError` if the name is still present. -/
def drop_collection (r : Remote) (name : PyVal) : Except Err PyVal × List Call :=
  if DropCollectionParams.valid name then
    match list_collections r 0 with
    | (.error e, t) => (.error e, t)
    | (.ok collections, t) =>
        if pyIn name collections = false then (.ok PyVal.none, t)
        else
          match r.dropResp with
          | .error e => (.error e, t ++ [Call.dropCollection name])
          | .ok _ =>
              match list_collections r 1 with
              | (.error e, t3) => (.error e, t ++ [Call.dropCollection name] ++ t3)
              | (.ok cols2, t3) =>
                  if pyIn name cols2 = false then
                    (.ok PyVal.none, t ++ [Call.dropCollection name] ++ t3)
                  else
                    (.error (.valueError
                      "The collection name is still in the collections list."),
                     t ++ [Call.dropCollection name] ++ t3)
  else (.error (.typeError "DropCollectionParams"), [])

/-- `MilvusClientInit.insert`: validate the arguments; list the collections
and return `None` if the name is absent; otherwise invoke the remote insert,
sleep `0.5` seconds, validate the acknowledgment is a `dict`, and return it. -/
def insert (r : Remote) (name data : PyVal) : Except Err PyVal × List Call :=
  if InsertParams.valid name data then
    match list_collections r 0 with
    | (.error e, t) => (.error e, t)
    | (.ok collections, t) =>
        if pyIn name collections = false then (.ok PyVal.none, t)
        else
          match r.insertResp with
          | .error e => (.error e, t ++ [Call.insert name data])
          | .ok results =>
              if InsertResults.valid results then
                (.ok results, t ++ [Call.insert name data, Call.sleep])
              else
                (.error (.typeError "InsertResults"),
                 t ++ [Call.insert name data, Call.sleep])
  else (.error (.typeError "InsertParams"), [])

/-- `MilvusClientInit.delete`: validate the arguments; list the collections
and return `None` if the name is absent; otherwise invoke the remote delete
by id list, sleep `0.5` seconds, and return `None`, discarding the remote
acknowledgment unvalidated. -/
def delete (r : Remote) (ids name : PyVal) : Except Err PyVal × List Call :=
  if DeleteParams.valid name ids then
    match list_collections r 0 with
    | (.error e, t) => (.error e, t)
    | (.ok collections, t) =>
        if pyIn name collections = false then (.ok PyVal.none, t)
        else
          match r.deleteResp with
          | .error e => (.error e, t ++ [Call.delete name ids])
          | .ok _ => (.ok PyVal.none, t ++ [Call.delete name ids, Call.sleep])
  else (.error (.typeError "DeleteParams"), [])

/-- The fixed extra search parameters
`{'params': {'drop_ratio_search': 0.2}}`. -/
def searchParamsVal : PyVal :=
  .dict [("params", .dict [("drop_ratio_search", .float (0.2 : Rat))])]

/-- `MilvusClientInit.full_text_search`: validate the arguments; list the
collections and return `None` if the name is absent; otherwise invoke the
remote search once with `anns_field="sparse"`, `output_fields=["text"]`,
the given limit and the fixed search params, validate the nested result
shape, and return the result. -/
def full_text_search (r : Remote) (name query_list limit : PyVal) :
    Except Err PyVal × List Call :=
  if FullTextSearchParams.valid name query_list limit then
    match list_collections r 0 with
    | (.error e, t) => (.error e, t)
    | (.ok collections, t) =>
        if pyIn name collections = false then (.ok PyVal.none, t)
        else
          let c : Call := .search name query_list (.str "sparse")
            (.list [.str "text"]) limit searchParamsVal
          match r.searchResp with
          | .error e => (.error e, t ++ [c])
          | .ok results =>
              if FullTextSearchResults.valid results then
                (.ok results, t ++ [c])
              else
                (.error (.typeError "FullTextSearchResults"), t ++ [c])
  else (.error (.typeError "FullTextSearchParams"), [])

/-! ## Concrete remote environments used to exercise the operations -/

/-- A remote service on which every call succeeds and the collection
`collection_ex` exists. -/
def remote0 : Remote where
  connectResp := .ok (.obj "MilvusClient" [])
  listResp := fun _ => .ok (.list [.str "collection_ex"])
  fieldResp := fun _ => .ok ()
  funcResp := fun _ => .ok ()
  indexResp := fun _ => .ok ()
  createResp := .ok ()
  dropResp := .ok ()
  insertResp := .ok (.dict [("insert_count", .int 1)])
  deleteResp := .ok (.dict [("delete_count", .int 1)])
  searchResp := .ok (.obj "SearchResult" [.obj "HybridHits" [.obj "Hit" []]])

/-- A remote service with no collections at first, on which creating a
collection succeeds and the second listing reports the new collection. -/
def remoteFresh : Remote :=
  { remote0 with
    listResp := fun i =>
      if i = 0 then .ok (.list []) else .ok (.list [.str "collection_ex"]) }

/-- A remote service holding `collection_ex` at first, on which dropping
succeeds and the second listing no longer reports it. -/
def remoteGone : Remote :=
  { remote0 with
    listResp := fun i =>
      if i = 0 then .ok (.list [.str "collection_ex"]) else .ok (.list []) }

/-- A remote service that refuses the connection attempt. -/
def remoteDown : Remote :=
  { remote0 with connectResp := .error (.remoteError "connection refused") }

/-- A remote service whose collection listing contains a `None` entry. -/
def remoteBadList : Remote :=
  { remote0 with listResp := fun _ => .ok (.list [.str "a", PyVal.none]) }

/-- A remote service whose delete acknowledgment is not a mapping. -/
def remoteWeirdAck : Remote :=
  { remote0 with deleteResp := .ok (.str "odd ack") }

/-! ## Evaluation lemmas -/

/-- When the remote listing returns a value that passes validation,
`list_collections` returns it and makes exactly the one listing call. -/
theorem list_collections_eval (r : Remote) (i : Nat) (v : PyVal)
    (h : r.listResp i = .ok v) (hv : ListCollectionsResults.valid v = true) :
    list_collections r i = (.ok v, [Call.listCollections]) := by
  simp [list_collections, h, hv]

/-- A list with a non-string item fails the list-of-strings check. -/
theorem isListOf_isStr_eq_false (v : PyVal) (h : hasNonStrItem v = true) :
    v.isListOf PyVal.isStr = false := by
  cases v with
  | list xs =>
      simp only [hasNonStrItem, List.any_eq_true, Bool.not_eq_true'] at h
      obtain ⟨x, hx, hxs⟩ := h
      simp only [PyVal.isListOf]
      rw [Bool.eq_false_iff]
      intro hall
      rw [List.all_eq_true] at hall
      rw [hall x hx] at hxs
      exact Bool.noConfusion hxs
  | none => simp [hasNonStrItem] at h
  | bool b => simp [hasNonStrItem] at h
  | int n => simp [hasNonStrItem] at h
  | float q => simp [hasNonStrItem] at h
  | str s => simp [hasNonStrItem] at h
  | dict kvs => simp [hasNonStrItem] at h
  | obj ty elems => simp [hasNonStrItem] at h

/-- When every add-field call succeeds and every entry is a `dict`, the
field loop succeeds and calls `add_field` once per entry, in order, with
the entry passed through unchanged. -/
theorem create_fields_loop_ok (r : Remote) (schema : PyVal)
    (hs : schema.isInst "CollectionSchema" = true)
    (hf : ∀ i, r.fieldResp i = .ok ()) (ps : List PyVal) :
    ps.all PyVal.isDict = true → ∀ i,
      create_fields_loop r schema ps i = (.ok (), ps.map Call.addField) := by
  induction ps with
  | nil => intro _ i; simp [create_fields_loop]
  | cons p rest ih =>
      intro hps i
      rw [List.all_cons, Bool.and_eq_true] at hps
      simp [create_fields_loop, _create_field, CreateFieldParams.valid, hs,
        hps.1, hf i, ih hps.2 (i + 1)]

/-- When every add-function call succeeds, the function loop succeeds and
calls `add_function` once per entry, in order. -/
theorem add_functions_loop_ok (r : Remote)
    (hg : ∀ i, r.funcResp i = .ok ()) (fs : List PyVal) :
    ∀ i, add_functions_loop r fs i = (.ok (), fs.map Call.addFunction) := by
  induction fs with
  | nil => intro i; simp [add_functions_loop]
  | cons f rest ih => intro i; simp [add_functions_loop, hg i, ih (i + 1)]

/-- When every add-index call succeeds and every entry is a `dict`, the
index loop succeeds and calls `add_index` once per entry, in order, with
the entry passed through unchanged. -/
theorem create_indexes_loop_ok (r : Remote) (index_params : PyVal)
    (hip : index_params.isInst "IndexParams" = true)
    (hx : ∀ i, r.indexResp i = .ok ()) (ps : List PyVal) :
    ps.all PyVal.isDict = true → ∀ i,
      create_indexes_loop r index_params ps i = (.ok (), ps.map Call.addIndex) := by
  induction ps with
  | nil => intro _ i; simp [create_indexes_loop]
  | cons p rest ih =>
      intro hps i
      rw [List.all_cons, Bool.and_eq_true] at hps
      simp [create_indexes_loop, _create_index, CreateIndexParams.valid, hip,
        hps.1, hx i, ih hps.2 (i + 1)]

/-- The full call trace of a successful `create_collection` run, up to and
including the remote create, before the re-listing post-check. -/
def createTracePrefix (name : PyVal) (fps fns ips : List PyVal) : List Call :=
  [Call.listCollections, Call.createSchema] ++ fps.map Call.addField
    ++ fns.map Call.addFunction ++ [Call.prepareIndexParams]
    ++ ips.map Call.addIndex ++ [Call.createCollection name]

/-- Full evaluation of `create_collection` on a fresh name when every
builder call and the remote create succeed: the result depends only on
whether the re-listing contains the name, and the trace is the builder
trace followed by the post-check listing. -/
theorem create_collection_eval (r : Remote) (name : PyVal)
    (fps fns ips : List PyVal) (cols cols2 : PyVal)
    (hv : CreateCollectionParams.valid name (.list fps) (.list fns) (.list ips) = true)
    (hl : r.listResp 0 = .ok cols) (hcv : ListCollectionsResults.valid cols = true)
    (habs : pyIn name cols = false)
    (hf : ∀ i, r.fieldResp i = .ok ()) (hg : ∀ i, r.funcResp i = .ok ())
    (hx : ∀ i, r.indexResp i = .ok ()) (hc : r.createResp = .ok ())
    (hl2 : r.listResp 1 = .ok cols2) (hcv2 : ListCollectionsResults.valid cols2 = true) :
    create_collection r name (.list fps) (.list fns) (.list ips) =
      ((if pyIn name cols2 then .ok PyVal.none
        else .error (.valueError
          "The new collection name is not in the collections list.")),
       createTracePrefix name fps fns ips ++ [Call.listCollections]) := by
  have hv' := hv
  simp only [CreateCollectionParams.valid, Bool.and_eq_true, PyVal.isListOf] at hv'
  obtain ⟨⟨⟨hn, hfps⟩, hfns⟩, hips⟩ := hv'
  have hsch : (PyVal.obj "CollectionSchema" []).isInst "CollectionSchema" = true := by
    decide
  have hixp : (PyVal.obj "IndexParams" []).isInst "IndexParams" = true := by
    decide
  simp only [create_collection, hv, if_true,
    list_collections_eval r 0 cols hl hcv, habs, Bool.false_eq_true, if_false,
    PyVal.items, create_fields_loop_ok r _ hsch hf fps hfps 0,
    add_functions_loop_ok r hg fns 0,
    create_indexes_loop_ok r _ hixp hx ips hips 0, hc,
    list_collections_eval r 1 cols2 hl2 hcv2, createTracePrefix]
  by_cases h2 : pyIn name cols2 = true <;> simp [h2]

/-! ## Claims -/

/-- Claim C1: for every public operation, if any argument has the wrong
shape (fails its parameter validator), the operation raises a
type-validation error before any client call is made, the call trace being
empty; the client state is untouched since the operations assign nothing. -/
theorem C1_validation_precedes_remote_calls (r : Remote)
    (name field_params_list func_list index_params_list data ids query_list limit : PyVal) :
    (CreateCollectionParams.valid name field_params_list func_list index_params_list = false →
      raisesTypeError (create_collection r name field_params_list func_list index_params_list).1 = true
      ∧ (create_collection r name field_params_list func_list index_params_list).2 = [])
  ∧ (DropCollectionParams.valid name = false →
      raisesTypeError (drop_collection r name).1 = true
      ∧ (drop_collection r name).2 = [])
  ∧ (InsertParams.valid name data = false →
      raisesTypeError (insert r name data).1 = true
      ∧ (insert r name data).2 = [])
  ∧ (DeleteParams.valid name ids = false →
      raisesTypeError (delete r ids name).1 = true
      ∧ (delete r ids name).2 = [])
  ∧ (FullTextSearchParams.valid name query_list limit = false →
      raisesTypeError (full_text_search r name query_list limit).1 = true
      ∧ (full_text_search r name query_list limit).2 = []) := by
  refine ⟨fun h => ?_, fun h => ?_, fun h => ?_, fun h => ?_, fun h => ?_⟩ <;>
    simp [create_collection, drop_collection, insert, delete, full_text_search,
      h, raisesTypeError]

/-- Witness for C1 at concrete ill-typed inputs (integer name). -/
theorem C1_witness :
    (raisesTypeError (create_collection remote0 (.int 3) (.list []) (.list []) (.list [])).1 = true
      ∧ (create_collection remote0 (.int 3) (.list []) (.list []) (.list [])).2 = [])
  ∧ (raisesTypeError (drop_collection remote0 (.int 3)).1 = true
      ∧ (drop_collection remote0 (.int 3)).2 = [])
  ∧ (raisesTypeError (insert remote0 (.int 3) (.list [])).1 = true
      ∧ (insert remote0 (.int 3) (.list [])).2 = [])
  ∧ (raisesTypeError (delete remote0 (.list []) (.int 3)).1 = true
      ∧ (delete remote0 (.list []) (.int 3)).2 = [])
  ∧ (raisesTypeError (full_text_search remote0 (.int 3) (.list []) (.int 3)).1 = true
      ∧ (full_text_search remote0 (.int 3) (.list []) (.int 3)).2 = []) := by
  have h := C1_validation_precedes_remote_calls remote0 (.int 3) (.list []) (.list [])
    (.list []) (.list []) (.list []) (.list []) (.int 3)
  exact ⟨h.1 (by decide), h.2.1 (by decide), h.2.2.1 (by decide),
    h.2.2.2.1 (by decide), h.2.2.2.2 (by decide)⟩

/-- Claim C2: for a collection name present in the remote list, a list of
string queries and an integer limit, `full_text_search` makes exactly one
search call, with `anns_field="sparse"`, `output_fields=["text"]`, the
given limit and the fixed search params, and returns the remote result
once it passes the nested shape validation. -/
theorem C2_full_text_search_remote_call (r : Remote)
    (name query_list limit cols res : PyVal)
    (hv : FullTextSearchParams.valid name query_list limit = true)
    (hl : r.listResp 0 = .ok cols) (hcv : ListCollectionsResults.valid cols = true)
    (hmem : pyIn name cols = true) (hs : r.searchResp = .ok res) :
    (full_text_search r name query_list limit).2 =
      [Call.listCollections,
       Call.search name query_list (.str "sparse") (.list [.str "text"]) limit
         searchParamsVal]
  ∧ (FullTextSearchResults.valid res = true →
      (full_text_search r name query_list limit).1 = .ok res) := by
  have hlist := list_collections_eval r 0 cols hl hcv
  constructor
  · by_cases hres : FullTextSearchResults.valid res = true <;>
      simp [full_text_search, hv, hlist, hmem, hs, hres]
  · intro hres
    simp [full_text_search, hv, hlist, hmem, hs, hres]

/-- Witness for C2 at a concrete present collection and query. -/
theorem C2_witness :
    (full_text_search remote0 (.str "collection_ex") (.list [.str "q"]) (.int 3)).2 =
      [Call.listCollections,
       Call.search (.str "collection_ex") (.list [.str "q"]) (.str "sparse")
         (.list [.str "text"]) (.int 3) searchParamsVal]
  ∧ (full_text_search remote0 (.str "collection_ex") (.list [.str "q"]) (.int 3)).1 =
      .ok (.obj "SearchResult" [.obj "HybridHits" [.obj "Hit" []]]) := by
  have h := C2_full_text_search_remote_call remote0 (.str "collection_ex")
    (.list [.str "q"]) (.int 3) (.list [.str "collection_ex"])
    (.obj "SearchResult" [.obj "HybridHits" [.obj "Hit" []]])
    (by decide) rfl (by decide) (by decide) rfl
  exact ⟨h.1, h.2 (by decide)⟩

/-- Claim C3: every well-typed `drop_collection`, `insert`, `delete` or
`full_text_search` on a name absent from the remote list returns `None`
right after the existence check, the trace holding only the listing call
and no remote mutating or search call. -/
theorem C3_absent_collection_early_return (r : Remote)
    (name data ids query_list limit cols : PyVal)
    (hl : r.listResp 0 = .ok cols) (hcv : ListCollectionsResults.valid cols = true)
    (habs : pyIn name cols = false) :
    (DropCollectionParams.valid name = true →
       drop_collection r name = (.ok PyVal.none, [Call.listCollections]))
  ∧ (InsertParams.valid name data = true →
       insert r name data = (.ok PyVal.none, [Call.listCollections]))
  ∧ (DeleteParams.valid name ids = true →
       delete r ids name = (.ok PyVal.none, [Call.listCollections]))
  ∧ (FullTextSearchParams.valid name query_list limit = true →
       full_text_search r name query_list limit =
         (.ok PyVal.none, [Call.listCollections])) := by
  have hlist := list_collections_eval r 0 cols hl hcv
  refine ⟨fun h => ?_, fun h => ?_, fun h => ?_, fun h => ?_⟩ <;>
    simp [drop_collection, insert, delete, full_text_search, h, hlist, habs]

/-- Witness for C3 at a concrete absent collection name. -/
theorem C3_witness :
    drop_collection remote0 (.str "absent") = (.ok PyVal.none, [Call.listCollections])
  ∧ insert remote0 (.str "absent") (.list [.dict []]) =
      (.ok PyVal.none, [Call.listCollections])
  ∧ delete remote0 (.list [.str "1"]) (.str "absent") =
      (.ok PyVal.none, [Call.listCollections])
  ∧ full_text_search remote0 (.str "absent") (.list [.str "q"]) (.int 3) =
      (.ok PyVal.none, [Call.listCollections]) := by
  have h := C3_absent_collection_early_return remote0 (.str "absent")
    (.list [.dict []]) (.list [.str "1"]) (.list [.str "q"]) (.int 3)
    (.list [.str "collection_ex"]) rfl (by decide) (by decide)
  exact ⟨h.1 (by decide), h.2.1 (by decide), h.2.2.1 (by decide), h.2.2.2 (by decide)⟩

/-- Claim C4: a well-typed `create_collection` on a name already present in
the remote list is a no-op: it returns `None` after the listing, creating
no schema and adding no field, function or index, with no remote create. -/
theorem C4_create_existing_noop (r : Remote)
    (name field_params_list func_list index_params_list cols : PyVal)
    (hv : CreateCollectionParams.valid name field_params_list func_list
            index_params_list = true)
    (hl : r.listResp 0 = .ok cols) (hcv : ListCollectionsResults.valid cols = true)
    (hmem : pyIn name cols = true) :
    create_collection r name field_params_list func_list index_params_list =
      (.ok PyVal.none, [Call.listCollections]) := by
  simp [create_collection, hv, list_collections_eval r 0 cols hl hcv, hmem]

/-- Witness for C4 at a concrete already-present collection name. -/
theorem C4_witness :
    create_collection remote0 (.str "collection_ex")
      (.list [.dict [("field_name", .str "id")]]) (.list [.obj "Function" []])
      (.list [.dict []]) = (.ok PyVal.none, [Call.listCollections]) :=
  C4_create_existing_noop remote0 (.str "collection_ex") _ _ _
    (.list [.str "collection_ex"]) (by decide) rfl (by decide) (by decide)

/-- Claim C5: after the remote create or drop succeeds, the operation
re-lists the collections and raises a `ValueError` exactly when the
expected membership change is not observed; when it is observed the
operation returns normally. -/
theorem C5_post_check (r r2 : Remote) (name : PyVal) (fps fns ips : List PyVal)
    (cols cols2 dname dcols dcols2 : PyVal) :
    (CreateCollectionParams.valid name (.list fps) (.list fns) (.list ips) = true →
     r.listResp 0 = .ok cols → ListCollectionsResults.valid cols = true →
     pyIn name cols = false →
     (∀ i, r.fieldResp i = .ok ()) → (∀ i, r.funcResp i = .ok ()) →
     (∀ i, r.indexResp i = .ok ()) → r.createResp = .ok () →
     r.listResp 1 = .ok cols2 → ListCollectionsResults.valid cols2 = true →
       raisesValueError (create_collection r name (.list fps) (.list fns) (.list ips)).1
         = !(pyIn name cols2)
       ∧ (pyIn name cols2 = true →
           (create_collection r name (.list fps) (.list fns) (.list ips)).1
             = .ok PyVal.none))
  ∧ (DropCollectionParams.valid dname = true →
     r2.listResp 0 = .ok dcols → ListCollectionsResults.valid dcols = true →
     pyIn dname dcols = true → r2.dropResp = .ok () →
     r2.listResp 1 = .ok dcols2 → ListCollectionsResults.valid dcols2 = true →
       raisesValueError (drop_collection r2 dname).1 = pyIn dname dcols2
       ∧ (pyIn dname dcols2 = false →
           (drop_collection r2 dname).1 = .ok PyVal.none)) := by
  constructor
  · intro hv hl hcv habs hf hg hx hc hl2 hcv2
    have heval := create_collection_eval r name fps fns ips cols cols2
      hv hl hcv habs hf hg hx hc hl2 hcv2
    constructor
    · by_cases h2 : pyIn name cols2 = true <;> simp [heval, h2, raisesValueError]
    · intro h2; simp [heval, h2]
  · intro hdv hdl hdcv hmem hdrop hdl2 hdcv2
    have hlist := list_collections_eval r2 0 dcols hdl hdcv
    have hlist2 := list_collections_eval r2 1 dcols2 hdl2 hdcv2
    constructor
    · by_cases h2 : pyIn dname dcols2 = true <;>
        simp [drop_collection, hdv, hlist, hmem, hdrop, hlist2, h2, raisesValueError]
    · intro h2
      simp [drop_collection, hdv, hlist, hmem, hdrop, hlist2, h2]

/-- Witness for C5: creating on a fresh remote whose re-listing reports the
new name, and dropping on a remote whose re-listing no longer reports it;
neither run raises and both return normally. -/
theorem C5_witness :
    (raisesValueError (create_collection remoteFresh (.str "collection_ex")
        (.list [.dict []]) (.list [.obj "Function" []]) (.list [.dict []])).1 = false
      ∧ (create_collection remoteFresh (.str "collection_ex")
          (.list [.dict []]) (.list [.obj "Function" []]) (.list [.dict []])).1
          = .ok PyVal.none)
  ∧ (raisesValueError (drop_collection remoteGone (.str "collection_ex")).1 = false
      ∧ (drop_collection remoteGone (.str "collection_ex")).1 = .ok PyVal.none) := by
  have h := C5_post_check remoteFresh remoteGone (.str "collection_ex") [.dict []]
    [.obj "Function" []] [.dict []] (.list []) (.list [.str "collection_ex"])
    (.str "collection_ex") (.list [.str "collection_ex"]) (.list [])
  have h1 := h.1 (by decide) rfl (by decide) (by decide) (fun i => rfl) (fun i => rfl)
    (fun i => rfl) rfl rfl (by decide)
  have h2 := h.2 (by decide) rfl (by decide) (by decide) rfl rfl (by decide)
  refine ⟨⟨?_, h1.2 (by decide)⟩, ?_, h2.2 (by decide)⟩
  · rw [h1.1]; decide
  · rw [h2.1]; decide

/-- Claim C6: on a present collection whose remote insert or delete call
succeeds, the fixed `time.sleep(0.5)` delay is applied before returning;
`insert` additionally validates the acknowledgment is a mapping, returning
it when it is and raising a type-validation error when it is not. -/
theorem C6_insert_delete_delay (r : Remote) (name data ids ack dack cols : PyVal)
    (hl : r.listResp 0 = .ok cols) (hcv : ListCollectionsResults.valid cols = true)
    (hmem : pyIn name cols = true) :
    (InsertParams.valid name data = true → r.insertResp = .ok ack →
       (insert r name data).2 =
         [Call.listCollections, Call.insert name data, Call.sleep]
       ∧ (InsertResults.valid ack = true → (insert r name data).1 = .ok ack)
       ∧ (InsertResults.valid ack = false →
            raisesTypeError (insert r name data).1 = true))
  ∧ (DeleteParams.valid name ids = true → r.deleteResp = .ok dack →
       delete r ids name =
         (.ok PyVal.none, [Call.listCollections, Call.delete name ids, Call.sleep])) := by
  have hlist := list_collections_eval r 0 cols hl hcv
  constructor
  · intro hv hresp
    refine ⟨?_, fun hok => ?_, fun hbad => ?_⟩
    · by_cases hok : InsertResults.valid ack = true <;>
        simp [insert, hv, hlist, hmem, hresp, hok]
    · simp [insert, hv, hlist, hmem, hresp, hok]
    · simp [insert, hv, hlist, hmem, hresp, hbad, raisesTypeError]
  · intro hv hresp
    simp [delete, hv, hlist, hmem, hresp]

/-- Witness for C6 at a concrete present collection. -/
theorem C6_witness :
    (insert remote0 (.str "collection_ex") (.list [.dict [("text", .str "t")]])).2 =
      [Call.listCollections,
       Call.insert (.str "collection_ex") (.list [.dict [("text", .str "t")]]),
       Call.sleep]
  ∧ (insert remote0 (.str "collection_ex") (.list [.dict [("text", .str "t")]])).1 =
      .ok (.dict [("insert_count", .int 1)])
  ∧ delete remote0 (.list [.str "1"]) (.str "collection_ex") =
      (.ok PyVal.none,
       [Call.listCollections,
        Call.delete (.str "collection_ex") (.list [.str "1"]), Call.sleep]) := by
  have h := C6_insert_delete_delay remote0 (.str "collection_ex")
    (.list [.dict [("text", .str "t")]]) (.list [.str "1"])
    (.dict [("insert_count", .int 1)]) (.dict [("delete_count", .int 1)])
    (.list [.str "collection_ex"]) rfl (by decide) (by decide)
  have h1 := h.1 (by decide) rfl
  exact ⟨h1.1, h1.2.1 (by decide), h.2 (by decide) rfl⟩

/-- Claim C7: on a fresh name with dict-shaped field and index entries, the
schema builder calls `add_field` exactly once per field entry and
`add_index` exactly once per index entry, in list order, passing each
entry through unchanged; the full call trace of `create_collection` is the
listing, schema creation, the per-entry builder calls, the remote create,
and the post-check listing. -/
theorem C7_schema_builder_passthrough (r : Remote) (name : PyVal)
    (fps fns ips : List PyVal) (cols cols2 : PyVal)
    (hv : CreateCollectionParams.valid name (.list fps) (.list fns) (.list ips) = true)
    (hl : r.listResp 0 = .ok cols) (hcv : ListCollectionsResults.valid cols = true)
    (habs : pyIn name cols = false)
    (hf : ∀ i, r.fieldResp i = .ok ()) (hg : ∀ i, r.funcResp i = .ok ())
    (hx : ∀ i, r.indexResp i = .ok ()) (hc : r.createResp = .ok ())
    (hl2 : r.listResp 1 = .ok cols2) (hcv2 : ListCollectionsResults.valid cols2 = true) :
    (create_collection r name (.list fps) (.list fns) (.list ips)).2 =
      [Call.listCollections, Call.createSchema] ++ fps.map Call.addField
        ++ fns.map Call.addFunction ++ [Call.prepareIndexParams]
        ++ ips.map Call.addIndex
        ++ [Call.createCollection name, Call.listCollections] := by
  have heval := create_collection_eval r name fps fns ips cols cols2
    hv hl hcv habs hf hg hx hc hl2 hcv2
  simp [heval, createTracePrefix]

/-- Witness for C7 at concrete two-field, one-function, one-index inputs. -/
theorem C7_witness :
    (create_collection remoteFresh (.str "collection_ex")
      (.list [.dict [("field_name", .str "id")], .dict [("field_name", .str "text")]])
      (.list [.obj "Function" []])
      (.list [.dict [("field_name", .str "sparse")]])).2 =
    [Call.listCollections, Call.createSchema,
     Call.addField (.dict [("field_name", .str "id")]),
     Call.addField (.dict [("field_name", .str "text")]),
     Call.addFunction (.obj "Function" []),
     Call.prepareIndexParams,
     Call.addIndex (.dict [("field_name", .str "sparse")]),
     Call.createCollection (.str "collection_ex"), Call.listCollections] := by
  have h := C7_schema_builder_passthrough remoteFresh (.str "collection_ex")
    [.dict [("field_name", .str "id")], .dict [("field_name", .str "text")]]
    [.obj "Function" []] [.dict [("field_name", .str "sparse")]]
    (.list []) (.list [.str "collection_ex"])
    (by decide) rfl (by decide) (by decide) (fun i => rfl) (fun i => rfl)
    (fun i => rfl) rfl rfl (by decide)
  simpa using h

/-- Claim C8: given an already-constructed handle, the constructor
validates it is a `MilvusClient` and stores it unchanged with no connect
call, raising a type-validation error for any other type; given no handle,
it connects from the address and re-raises the failure when the remote
service is unreachable. -/
theorem C8_init_client (r : Remote) (uri c : PyVal) (e : Err)
    (hu : InitClientParams.valid uri = true) :
    (InitClientResults.valid c = true →
       MilvusClientInit.init r uri (Option.some c) = (.ok c, []))
  ∧ (InitClientResults.valid c = false →
       raisesTypeError (MilvusClientInit.init r uri (Option.some c)).1 = true
       ∧ (MilvusClientInit.init r uri (Option.some c)).2 = [])
  ∧ (r.connectResp = .error e →
       MilvusClientInit.init r uri Option.none = (.error e, [Call.connect uri])) := by
  refine ⟨fun h => ?_, fun h => ?_, fun h => ?_⟩ <;>
    simp [MilvusClientInit.init, hu, h, raisesTypeError]

/-- Witness for C8: a genuine handle is stored, a string in place of a
handle raises, and an unreachable service propagates the failure. -/
theorem C8_witness :
    MilvusClientInit.init remote0 (.str "http://localhost:19530")
      (Option.some (.obj "MilvusClient" [])) = (.ok (.obj "MilvusClient" []), [])
  ∧ (raisesTypeError (MilvusClientInit.init remote0 (.str "http://localhost:19530")
        (Option.some (.str "not a client"))).1 = true
      ∧ (MilvusClientInit.init remote0 (.str "http://localhost:19530")
          (Option.some (.str "not a client"))).2 = [])
  ∧ MilvusClientInit.init remoteDown (.str "http://localhost:19530") Option.none =
      (.error (.remoteError "connection refused"),
       [Call.connect (.str "http://localhost:19530")]) := by
  have ha := C8_init_client remote0 (.str "http://localhost:19530")
    (.obj "MilvusClient" []) (.remoteError "x") (by decide)
  have hb := C8_init_client remote0 (.str "http://localhost:19530")
    (.str "not a client") (.remoteError "x") (by decide)
  have hc := C8_init_client remoteDown (.str "http://localhost:19530")
    (.obj "MilvusClient" []) (.remoteError "connection refused") (by decide)
  exact ⟨ha.1 (by decide), hb.2.1 (by decide), hc.2.2 rfl⟩

/-- Claim C9: although the declared return type of `list_collections`
admits `None` entries, its result validator raises a type error whenever
the remote list holds any non-string item (`None` included), so every list
it successfully returns contains only strings. -/
theorem C9_list_collections_strings_only (r : Remote) (i : Nat) (v w : PyVal) :
    (r.listResp i = .ok v → hasNonStrItem v = true →
       raisesTypeError (list_collections r i).1 = true)
  ∧ ((list_collections r i).1 = .ok w → ListCollectionsResults.valid w = true) := by
  constructor
  · intro hv hbad
    have hval : ListCollectionsResults.valid v = false := by
      simpa [ListCollectionsResults.valid] using isListOf_isStr_eq_false v hbad
    simp [list_collections, hv, hval, raisesTypeError]
  · intro hw
    unfold list_collections at hw
    cases hl : r.listResp i with
    | error e => rw [hl] at hw; simp at hw
    | ok u =>
        rw [hl] at hw
        by_cases hu : ListCollectionsResults.valid u = true
        · simp [hu] at hw; rwa [← hw]
        · simp [hu] at hw

/-- Witness for C9: a listing containing `None` raises, and a successful
listing passes the all-strings validation. -/
theorem C9_witness :
    raisesTypeError (list_collections remoteBadList 0).1 = true
  ∧ ListCollectionsResults.valid (.list [.str "collection_ex"]) = true := by
  have h := C9_list_collections_strings_only remoteBadList 0
    (.list [.str "a", PyVal.none]) (.list [.str "collection_ex"])
  have h2 := C9_list_collections_strings_only remote0 0
    (.list [.str "collection_ex"]) (.list [.str "collection_ex"])
  exact ⟨h.1 rfl (by decide), h2.2 rfl⟩

/-- Claim C10: `delete` returns `None` both on the missing-collection early
return and after a successful remote delete, never validating the remote
acknowledgment, whose value (of any shape) is discarded; and a non-string
entry in the id list raises a type-validation error before any call. -/
theorem C10_delete_returns_none (r : Remote) (name ids ack cols : PyVal) :
    (DeleteParams.valid name ids = true → r.listResp 0 = .ok cols →
       ListCollectionsResults.valid cols = true → pyIn name cols = true →
       r.deleteResp = .ok ack →
       delete r ids name =
         (.ok PyVal.none, [Call.listCollections, Call.delete name ids, Call.sleep]))
  ∧ (DeleteParams.valid name ids = true → r.listResp 0 = .ok cols →
       ListCollectionsResults.valid cols = true → pyIn name cols = false →
       delete r ids name = (.ok PyVal.none, [Call.listCollections]))
  ∧ (hasNonStrItem ids = true →
       raisesTypeError (delete r ids name).1 = true ∧ (delete r ids name).2 = []) := by
  refine ⟨fun hv hl hcv hmem hresp => ?_, fun hv hl hcv habs => ?_, fun hbad => ?_⟩
  · simp [delete, hv, list_collections_eval r 0 cols hl hcv, hmem, hresp]
  · simp [delete, hv, list_collections_eval r 0 cols hl hcv, habs]
  · have hval : DeleteParams.valid name ids = false := by
      simp [DeleteParams.valid, isListOf_isStr_eq_false ids hbad]
    simp [delete, hval, raisesTypeError]

/-- Witness for C10: a non-mapping delete acknowledgment is discarded and
`None` is returned, a missing collection returns `None`, and an integer id
raises with no calls made. -/
theorem C10_witness :
    delete remoteWeirdAck (.list [.str "1"]) (.str "collection_ex") =
      (.ok PyVal.none,
       [Call.listCollections,
        Call.delete (.str "collection_ex") (.list [.str "1"]), Call.sleep])
  ∧ delete remote0 (.list [.str "1"]) (.str "nope") =
      (.ok PyVal.none, [Call.listCollections])
  ∧ (raisesTypeError (delete remote0 (.list [.int 7]) (.str "collection_ex")).1 = true
      ∧ (delete remote0 (.list [.int 7]) (.str "collection_ex")).2 = []) := by
  have h1 := C10_delete_returns_none remoteWeirdAck (.str "collection_ex")
    (.list [.str "1"]) (.str "odd ack") (.list [.str "collection_ex"])
  have h2 := C10_delete_returns_none remote0 (.str "nope") (.list [.str "1"])
    (.dict []) (.list [.str "collection_ex"])
  have h3 := C10_delete_returns_none remote0 (.str "collection_ex") (.list [.int 7])
    (.dict []) (.list [.str "collection_ex"])
  exact ⟨h1.1 (by decide) rfl (by decide) (by decide) rfl,
    h2.2.1 (by decide) rfl (by decide) (by decide),
    h3.2.2 (by decide)⟩

end MilvusFacade
